import Mathlib

/-!
Shallow embedding of the request pipeline of the YooKassa SDK connector
(`Connector.request` and its helpers `isRetryableError`, `delay`, the
retry constants), together with theorems settling the specification's
claims about it.

Modelling conventions:
* An HTTP error body is abstracted to whether it is a well-formed YooKassa
  error envelope (a JSON object whose `type` field equals `"error"`): the
  constructor `RespBody.yoo` carries the envelope's remaining fields, and
  `RespBody.other` stands for every other body (HTML page, empty body,
  object without `type == "error"`, ...).  The `type` field of the envelope
  is therefore implicit and always `"error"`.
* JavaScript truthiness of strings (`s || d`) is modelled by `jsOrStr`
  (an empty or absent string falls through to the default), and truthiness
  of the numeric status by an explicit `≠ 0` test.
* The `for (let attempt = 0; attempt <= this.retries; attempt++)` loop is
  modelled by the fuel-indexed recursion `requestAux`; the top-level call
  supplies fuel `retries + 1`, one unit per loop iteration, and the
  fuel-zero branch is exactly the post-loop synthesis of the source.
* Each physical attempt's `Idempotence-Key` header value, each back-off
  wait, and whether the post-loop block was reached are recorded in a
  `RunResult` trace alongside the returned `ApiResponse`.
-/

namespace YooKassa

/-- Default request timeout in ms (`DEFAULT_TIMEOUT`). -/
def DEFAULT_TIMEOUT : Nat := 5000

/-- Default number of retries (`DEFAULT_RETRIES`). -/
def DEFAULT_RETRIES : Nat := 5

/-- Base delay between retries in ms (`RETRY_DELAY`). -/
def RETRY_DELAY : Nat := 1000

/-- The YooKassa structured error envelope `{type: "error", id, code,
description}`; the constant `type` field is implicit. -/
structure YooKassaErrResponse where
  id : String
  code : String
  description : String
deriving DecidableEq

/-- Body of an HTTP error response: either a well-formed YooKassa error
envelope (an object with `type == "error"`), or anything else. -/
inductive RespBody where
  | yoo (e : YooKassaErrResponse)
  | other
deriving DecidableEq

/-- The response attached to an axios error, when one was received. -/
structure AxiosResponse where
  status : Nat
  statusText : String
  body : RespBody
deriving DecidableEq

/-- An axios failure: optional received response, optional transport error
code, and a message. -/
structure AxiosError where
  response : Option AxiosResponse
  code : Option String
  message : String
deriving DecidableEq

/-- Checks whether a failed request may be repeated (`isRetryableError`):
network errors (no response), 5xx server errors, and 429. -/
def isRetryableError (e : AxiosError) : Bool :=
  match e.response with
  | none => true
  | some r =>
    if 500 ≤ r.status ∧ r.status < 600 then true
    else if r.status = 429 then true
    else false

/-- The `isValidYooKassaError` extraction of the catch block: the response
data, when it is an object with `type == "error"`. -/
def errPayload (e : AxiosError) : Option YooKassaErrResponse :=
  match e.response with
  | none => none
  | some r =>
    match r.body with
    | .yoo p => some p
    | .other => none

/-- JavaScript `s || d` on an optional string: the default wins when the
string is absent or empty (falsy). -/
def jsOrStr : Option String → String → String
  | none, d => d
  | some s, d => if s = "" then d else s

/-- The in-loop synthesized `errorData` for a network error or invalid
response (source lines building `HTTP_<status>` / `code` /
`NETWORK_ERROR`), with JavaScript truthiness on the status. -/
def synthNetworkError (key : String) (e : AxiosError) : YooKassaErrResponse :=
  match e.response with
  | some r =>
    if r.status ≠ 0 then
      { id := key
        code := "HTTP_" ++ toString r.status
        description :=
          "HTTP " ++ toString r.status ++ ": " ++ jsOrStr (some r.statusText) e.message }
    else
      { id := key
        code := jsOrStr e.code "NETWORK_ERROR"
        description := jsOrStr (some e.message) "Network error occurred" }
  | none =>
    { id := key
      code := jsOrStr e.code "NETWORK_ERROR"
      description := jsOrStr (some e.message) "Network error occurred" }

/-- The post-loop synthesized `errorData` (`lastError?.code ||
'RETRY_EXHAUSTED'`, `lastError?.message || 'All retry attempts failed'`). -/
def postLoopSynth (key : String) (lastError : Option AxiosError) : YooKassaErrResponse :=
  { id := key
    code := jsOrStr (lastError.bind (·.code)) "RETRY_EXHAUSTED"
    description := jsOrStr (lastError.map (·.message)) "All retry attempts failed" }

/-- The normalized result shape `ApiResponse = BadApiResponse |
GoodApiResponse`, modelled as one record so that the exactly-one-branch
invariant is a provable property rather than true by construction. -/
structure ApiResponse (Res : Type) where
  success : String
  data : Option Res := none
  errorData : Option YooKassaErrResponse := none
  requestId : String
deriving DecidableEq

/-- Outcome of one physical attempt through the transport adapter. -/
inductive AttemptOutcome (Res : Type) where
  | ok (data : Res)
  | err (e : AxiosError)
deriving DecidableEq

/-- Observable trace of one logical call: the `Idempotence-Key` header
value of every physical attempt in order, every back-off wait performed,
whether the post-loop synthesis block was reached, and the returned
`ApiResponse`. -/
structure RunResult (Res : Type) where
  headers : List String
  delays : List Nat
  fellThrough : Bool
  result : ApiResponse Res
deriving DecidableEq

/-- One iteration of the attempt loop of `Connector.request`, with `fuel`
counting the remaining loop iterations (`retries + 1 - attempt` at the
top-level call).  The fuel-zero branch is the post-loop synthesis of the
source; `lastError` is the error saved by the previous iteration.  The
catch block is mirrored branch by branch: a valid envelope that is not
retryable returns immediately; a retryable error with attempts remaining
waits `RETRY_DELAY * 2 ^ attempt` and continues; otherwise the valid
envelope, if any, is returned, else a network error is synthesized. -/
def requestAux {Res : Type} (retries : Nat) (key : String)
    (transport : Nat → AttemptOutcome Res) :
    Nat → Option AxiosError → Nat → RunResult Res
  | _, lastError, 0 =>
    { headers := []
      delays := []
      fellThrough := true
      result :=
        { success := "NO_OK"
          errorData := some (postLoopSynth key lastError)
          requestId := key } }
  | attempt, _, fuel + 1 =>
    match transport attempt with
    | .ok d =>
      { headers := [key]
        delays := []
        fellThrough := false
        result := { success := "OK", data := some d, requestId := key } }
    | .err e =>
      match errPayload e with
      | some p =>
        if isRetryableError e = false then
          { headers := [key]
            delays := []
            fellThrough := false
            result := { success := "NO_OK", errorData := some p, requestId := key } }
        else if attempt < retries then
          let rest := requestAux retries key transport (attempt + 1) (some e) fuel
          { headers := key :: rest.headers
            delays := RETRY_DELAY * 2 ^ attempt :: rest.delays
            fellThrough := rest.fellThrough
            result := rest.result }
        else
          { headers := [key]
            delays := []
            fellThrough := false
            result := { success := "NO_OK", errorData := some p, requestId := key } }
      | none =>
        if attempt < retries ∧ isRetryableError e = true then
          let rest := requestAux retries key transport (attempt + 1) (some e) fuel
          { headers := key :: rest.headers
            delays := RETRY_DELAY * 2 ^ attempt :: rest.delays
            fellThrough := rest.fellThrough
            result := rest.result }
        else
          { headers := [key]
            delays := []
            fellThrough := false
            result :=
              { success := "NO_OK"
                errorData := some (synthNetworkError key e)
                requestId := key } }

/-- The request pipeline `Connector.request`: resolve the idempotency key
(`opts.requestId ?? randomUUID()`, with `uuid` standing for the freshly
generated UUID), then run the attempt loop for attempts `0..retries`.
The `transport` oracle gives the outcome of each physical attempt. -/
def Connector.request {Res : Type} (retries : Nat) (requestId : Option String)
    (uuid : String) (transport : Nat → AttemptOutcome Res) : RunResult Res :=
  let idempotenceKey := requestId.getD uuid
  requestAux retries idempotenceKey transport 0 none (retries + 1)

/-- The attempt loop attaches the fixed key as the header of every
physical attempt and as the `requestId` of whatever result it returns. -/
lemma requestAux_key {Res : Type} (retries : Nat) (key : String)
    (t : Nat → AttemptOutcome Res) :
    ∀ fuel attempt lastError,
      (requestAux retries key t attempt lastError fuel).headers.all (· == key) = true ∧
      (requestAux retries key t attempt lastError fuel).result.requestId = key := by
  intro fuel
  induction fuel with
  | zero => intro attempt le; simp [requestAux]
  | succ n ih =>
    intro attempt le
    simp only [requestAux]
    cases h : t attempt with
    | ok d => simp
    | err e =>
      cases hp : errPayload e with
      | some p =>
        by_cases h1 : isRetryableError e = false
        · simp [hp, h1]
        · by_cases h2 : attempt < retries
          · simp [hp, h1, h2, (ih (attempt + 1) (some e)).1, (ih (attempt + 1) (some e)).2]
          · simp [hp, h1, h2]
      | none =>
        by_cases h2 : attempt < retries ∧ isRetryableError e = true
        · simp [hp, h2, (ih (attempt + 1) (some e)).1, (ih (attempt + 1) (some e)).2]
        · simp [hp, h2]

/-- Every result the attempt loop can produce has exactly one of the
Ok/Err branches populated. -/
lemma requestAux_branches {Res : Type} (retries : Nat) (key : String)
    (t : Nat → AttemptOutcome Res) :
    ∀ fuel attempt lastError,
      ((requestAux retries key t attempt lastError fuel).result.success = "OK" ∧
        (requestAux retries key t attempt lastError fuel).result.data.isSome = true ∧
        (requestAux retries key t attempt lastError fuel).result.errorData = none) ∨
      ((requestAux retries key t attempt lastError fuel).result.success = "NO_OK" ∧
        (requestAux retries key t attempt lastError fuel).result.errorData.isSome = true ∧
        (requestAux retries key t attempt lastError fuel).result.data = none) := by
  intro fuel
  induction fuel with
  | zero => intro attempt le; simp [requestAux]
  | succ n ih =>
    intro attempt le
    simp only [requestAux]
    cases h : t attempt with
    | ok d => simp
    | err e =>
      cases hp : errPayload e with
      | some p =>
        by_cases h1 : isRetryableError e = false
        · simp [hp, h1]
        · by_cases h2 : attempt < retries
          · simpa [hp, h1, h2] using ih (attempt + 1) (some e)
          · simp [hp, h1, h2]
      | none =>
        by_cases h2 : attempt < retries ∧ isRetryableError e = true
        · simpa [hp, h2] using ih (attempt + 1) (some e)
        · simp [hp, h2]

/-- The attempt loop always returns from within one of its iterations
when it starts with fuel covering attempts `attempt..retries`: the
post-loop branch is never reached. -/
lemma requestAux_not_fellThrough {Res : Type} (retries : Nat) (key : String)
    (t : Nat → AttemptOutcome Res) :
    ∀ fuel attempt lastError, attempt + fuel = retries + 1 → attempt ≤ retries →
      (requestAux retries key t attempt lastError fuel).fellThrough = false := by
  intro fuel
  induction fuel with
  | zero => intro attempt le h1 h2; omega
  | succ n ih =>
    intro attempt le h1 h2
    simp only [requestAux]
    cases h : t attempt with
    | ok d => simp
    | err e =>
      cases hp : errPayload e with
      | some p =>
        by_cases h3 : isRetryableError e = false
        · simp [hp, h3]
        · by_cases h4 : attempt < retries
          · simp [hp, h3, h4, ih (attempt + 1) (some e) (by omega) (by omega)]
          · simp [hp, h3, h4]
      | none =>
        by_cases h4 : attempt < retries ∧ isRetryableError e = true
        · simp [hp, h4, ih (attempt + 1) (some e) (by omega) (by omega)]
        · simp [hp, h4]

/-- Every back-off wait recorded by the attempt loop is exponential in
the index of the attempt that triggered it. -/
lemma requestAux_delays {Res : Type} (retries : Nat) (key : String)
    (t : Nat → AttemptOutcome Res) :
    ∀ fuel attempt lastError j,
      j < (requestAux retries key t attempt lastError fuel).delays.length →
      (requestAux retries key t attempt lastError fuel).delays.getD j 0 =
        RETRY_DELAY * 2 ^ (attempt + j) := by
  intro fuel
  induction fuel with
  | zero => intro attempt le j hj; simp [requestAux] at hj
  | succ n ih =>
    intro attempt le j hj
    simp only [requestAux] at hj ⊢
    cases h : t attempt with
    | ok d => simp only [h] at hj; simp at hj
    | err e =>
      simp only [h] at hj ⊢
      cases hp : errPayload e with
      | some p =>
        simp only [hp] at hj ⊢
        by_cases h1 : isRetryableError e = false
        · simp only [if_pos h1] at hj; simp at hj
        · simp only [if_neg h1] at hj ⊢
          by_cases h2 : attempt < retries
          · simp only [if_pos h2] at hj ⊢
            cases j with
            | zero => simp
            | succ j =>
              have hj' : j < (requestAux retries key t (attempt + 1) (some e) n).delays.length := by
                simpa using hj
              have hrec := ih (attempt + 1) (some e) j hj'
              have harith : attempt + (j + 1) = attempt + 1 + j := by omega
              simpa [harith] using hrec
          · simp only [if_neg h2] at hj; simp at hj
      | none =>
        simp only [hp] at hj ⊢
        by_cases h2 : attempt < retries ∧ isRetryableError e = true
        · simp only [if_pos h2] at hj ⊢
          cases j with
          | zero => simp
          | succ j =>
            have hj' : j < (requestAux retries key t (attempt + 1) (some e) n).delays.length := by
              simpa using hj
            have hrec := ih (attempt + 1) (some e) j hj'
            have harith : attempt + (j + 1) = attempt + 1 + j := by omega
            simpa [harith] using hrec
        · simp only [if_neg h2] at hj; simp at hj

/-- When every attempt fails with a retryable error, the loop consumes
all of its fuel (one attempt per unit), returns Err, and its payload is
the structured envelope of the final attempt when present, else the
synthesized network error of that attempt. -/
lemma requestAux_allRetryable {Res : Type} (retries : Nat) (key : String)
    (t : Nat → AttemptOutcome Res) (e : Nat → AxiosError)
    (hT : ∀ i, t i = .err (e i) ∧ isRetryableError (e i) = true) :
    ∀ fuel attempt lastError, attempt + fuel = retries + 1 → attempt ≤ retries →
      (requestAux retries key t attempt lastError fuel).headers.length = fuel ∧
      (requestAux retries key t attempt lastError fuel).result.success = "NO_OK" ∧
      (requestAux retries key t attempt lastError fuel).result.data = none ∧
      (requestAux retries key t attempt lastError fuel).result.errorData =
        some ((errPayload (e retries)).getD (synthNetworkError key (e retries))) := by
  intro fuel
  induction fuel with
  | zero => intro attempt le h1 h2; omega
  | succ n ih =>
    intro attempt le h1 h2
    have ht := (hT attempt).1
    have hr := (hT attempt).2
    simp only [requestAux, ht]
    by_cases h4 : attempt < retries
    · cases hp : errPayload (e attempt) with
      | some p =>
        simpa [hp, hr, h4] using ih (attempt + 1) (some (e attempt)) (by omega) (by omega)
      | none =>
        simpa [hp, hr, h4] using ih (attempt + 1) (some (e attempt)) (by omega) (by omega)
    · have ha : attempt = retries := by omega
      subst ha
      have hn : n = 0 := by omega
      subst hn
      cases hp : errPayload (e attempt) with
      | some p => simp [hp, hr, h4]
      | none => simp [hp, hr, h4]

/-- Against a transport that fails identically on every attempt with no
structured envelope, the loop returns the synthesized network error for
that failure (whether or not the failure is retryable). -/
lemma requestAux_const_noPayload {Res : Type} (retries : Nat) (key : String)
    (e : AxiosError) (hp : errPayload e = none) :
    ∀ fuel attempt lastError, attempt + fuel = retries + 1 → attempt ≤ retries →
      (requestAux retries key (fun _ => (AttemptOutcome.err e : AttemptOutcome Res))
          attempt lastError fuel).result.errorData = some (synthNetworkError key e) := by
  intro fuel
  induction fuel with
  | zero => intro attempt le h1 h2; omega
  | succ n ih =>
    intro attempt le h1 h2
    simp only [requestAux]
    by_cases h4 : attempt < retries ∧ isRetryableError e = true
    · simpa [hp, h4] using ih (attempt + 1) (some e) (by omega) (by omega)
    · simp [hp, h4]

/-- With positive fuel the attempt loop performs at least one physical
attempt. -/
lemma requestAux_headers_pos {Res : Type} (retries : Nat) (key : String)
    (t : Nat → AttemptOutcome Res) (fuel attempt : Nat) (lastError : Option AxiosError)
    (hf : 0 < fuel) :
    0 < (requestAux retries key t attempt lastError fuel).headers.length := by
  cases fuel with
  | zero => omega
  | succ n =>
    simp only [requestAux]
    cases h : t attempt with
    | ok d => simp
    | err e =>
      cases hp : errPayload e with
      | some p =>
        by_cases h1 : isRetryableError e = false
        · simp [hp, h1]
        · by_cases h2 : attempt < retries
          · simp [hp, h1, h2]
          · simp [hp, h1, h2]
      | none =>
        by_cases h2 : attempt < retries ∧ isRetryableError e = true
        · simp [hp, h2]
        · simp [hp, h2]

/-- C1: for every call to the request operation, a single idempotency key
is resolved once (the caller-supplied `requestId` if present, otherwise
the freshly generated UUID), that same string is attached as the
`Idempotence-Key` header on every physical attempt of the call (and at
least one attempt is made), and the `requestId` field of the returned
result (in the Ok and in every Err branch alike) equals that key. -/
theorem claim_C1 {Res : Type} (retries : Nat) (requestId : Option String)
    (uuid : String) (t : Nat → AttemptOutcome Res) :
    (Connector.request retries requestId uuid t).headers.all
        (· == requestId.getD uuid) = true ∧
    0 < (Connector.request retries requestId uuid t).headers.length ∧
    (Connector.request retries requestId uuid t).result.requestId =
      requestId.getD uuid := by
  refine ⟨?_, ?_, ?_⟩
  · simpa [Connector.request] using
      (requestAux_key retries (requestId.getD uuid) t (retries + 1) 0 none).1
  · simpa [Connector.request] using
      requestAux_headers_pos retries (requestId.getD uuid) t (retries + 1) 0 none (by omega)
  · simpa [Connector.request] using
      (requestAux_key retries (requestId.getD uuid) t (retries + 1) 0 none).2

/-- C2: for every failure, `isRetryableError` returns true if and only if
either no response was received at all, or a response was received with
status in [500,600), or with status 429; for every other received status
it returns false. -/
theorem claim_C2 (e : AxiosError) :
    isRetryableError e = true ↔
      e.response = none ∨
        ∃ r, e.response = some r ∧
          ((500 ≤ r.status ∧ r.status < 600) ∨ r.status = 429) := by
  cases hre : e.response with
  | none => simp [isRetryableError, hre]
  | some r =>
    simp only [isRetryableError, hre]
    by_cases h1 : 500 ≤ r.status ∧ r.status < 600
    · simp [h1]
    · by_cases h2 : r.status = 429
      · simp [h1, h2]
      · simp [h1, h2]

/-- C9: for every configured retries value (a natural number) and every
transport, the request operation returns from within the attempt loop;
the post-loop synthesis block after the loop is unreachable. -/
theorem claim_C9 {Res : Type} (retries : Nat) (requestId : Option String)
    (uuid : String) (t : Nat → AttemptOutcome Res) :
    (Connector.request retries requestId uuid t).fellThrough = false := by
  simpa [Connector.request] using
    requestAux_not_fellThrough retries (requestId.getD uuid) t (retries + 1) 0 none
      (by omega) (by omega)

/-- C8: the request operation is a total function into the normalized
result shape: for every transport outcome it returns a value with exactly
one of the Ok ("OK") or Err ("NO_OK") branches populated. -/
theorem claim_C8 {Res : Type} (retries : Nat) (requestId : Option String)
    (uuid : String) (t : Nat → AttemptOutcome Res) :
    ((Connector.request retries requestId uuid t).result.success = "OK" ∧
      (Connector.request retries requestId uuid t).result.data.isSome = true ∧
      (Connector.request retries requestId uuid t).result.errorData = none) ∨
    ((Connector.request retries requestId uuid t).result.success = "NO_OK" ∧
      (Connector.request retries requestId uuid t).result.errorData.isSome = true ∧
      (Connector.request retries requestId uuid t).result.data = none) := by
  simpa [Connector.request] using
    requestAux_branches retries (requestId.getD uuid) t (retries + 1) 0 none

/-- C7: for every attempt index `j` at which a retry is performed, the
back-off delay before the next attempt equals `1000 * 2 ^ j` ms (no
jitter, no cap). -/
theorem claim_C7 {Res : Type} (retries : Nat) (requestId : Option String)
    (uuid : String) (t : Nat → AttemptOutcome Res) (j : Nat)
    (hj : j < (Connector.request retries requestId uuid t).delays.length) :
    (Connector.request retries requestId uuid t).delays.getD j 0 = 1000 * 2 ^ j := by
  have h := requestAux_delays retries (requestId.getD uuid) t (retries + 1) 0 none j
    (by simpa [Connector.request] using hj)
  simpa [Connector.request, RETRY_DELAY] using h

/-- Witness for C7: the first recorded back-off delay of a concrete run
is 1000 ms. -/
theorem claim_C7_witness :
    (Connector.request 1 none "u7"
        (fun _ => (AttemptOutcome.err
          { response := none, code := none, message := "timeout" }
          : AttemptOutcome Unit))).delays.getD 0 0 = 1000 * 2 ^ 0 :=
  claim_C7 1 none "u7"
    (fun _ => (AttemptOutcome.err
      { response := none, code := none, message := "timeout" }
      : AttemptOutcome Unit)) 0 (by decide)

/-- C3 is false as stated: a failure with HTTP status 400 and a
non-envelope body (e.g. an HTML error page) is not treated as retryable;
with retries = 3 the pipeline performs exactly one attempt, waits for no
back-off, and returns the synthesized `HTTP_400` error immediately. -/
theorem claim_C3_counterexample :
    (Connector.request 3 none "key-c3"
        (fun _ => (AttemptOutcome.err
          { response := some { status := 400, statusText := "Bad Request", body := .other }
            code := none
            message := "Request failed with status code 400" } : AttemptOutcome Unit))).headers.length = 1 ∧
    (Connector.request 3 none "key-c3"
        (fun _ => (AttemptOutcome.err
          { response := some { status := 400, statusText := "Bad Request", body := .other }
            code := none
            message := "Request failed with status code 400" } : AttemptOutcome Unit))).delays = [] ∧
    (Connector.request 3 none "key-c3"
        (fun _ => (AttemptOutcome.err
          { response := some { status := 400, statusText := "Bad Request", body := .other }
            code := none
            message := "Request failed with status code 400" } : AttemptOutcome Unit))).result.errorData =
      some { id := "key-c3", code := "HTTP_400", description := "HTTP 400: Bad Request" } := by
  decide

/-- C3 (amended): a failure without a structured envelope is classified
by `isRetryableError` on its status alone; when that classification is
non-retryable (a received status outside [500,600) and ≠ 429), the
pipeline returns a synthesized Err immediately after the first attempt,
consuming no retries, regardless of the malformed body. -/
theorem claim_C3_amended {Res : Type} (retries : Nat) (requestId : Option String)
    (uuid : String) (t : Nat → AttemptOutcome Res) (e : AxiosError)
    (h0 : t 0 = AttemptOutcome.err e) (hp : errPayload e = none)
    (hr : isRetryableError e = false) :
    (Connector.request retries requestId uuid t).headers.length = 1 ∧
    (Connector.request retries requestId uuid t).delays = [] ∧
    (Connector.request retries requestId uuid t).result.success = "NO_OK" ∧
    (Connector.request retries requestId uuid t).result.errorData =
      some (synthNetworkError (requestId.getD uuid) e) := by
  simp [Connector.request, requestAux, h0, hp, hr]

/-- Witness for the amended C3 at a concrete 404 HTML-body failure. -/
theorem claim_C3_amended_witness :
    (Connector.request 2 none "k3"
        (fun _ => (AttemptOutcome.err
          { response := some { status := 404, statusText := "Not Found", body := .other }
            code := none
            message := "m" } : AttemptOutcome Unit))).headers.length = 1 ∧
    (Connector.request 2 none "k3"
        (fun _ => (AttemptOutcome.err
          { response := some { status := 404, statusText := "Not Found", body := .other }
            code := none
            message := "m" } : AttemptOutcome Unit))).delays = [] ∧
    (Connector.request 2 none "k3"
        (fun _ => (AttemptOutcome.err
          { response := some { status := 404, statusText := "Not Found", body := .other }
            code := none
            message := "m" } : AttemptOutcome Unit))).result.success = "NO_OK" ∧
    (Connector.request 2 none "k3"
        (fun _ => (AttemptOutcome.err
          { response := some { status := 404, statusText := "Not Found", body := .other }
            code := none
            message := "m" } : AttemptOutcome Unit))).result.errorData =
      some (synthNetworkError "k3"
        { response := some { status := 404, statusText := "Not Found", body := .other }
          code := none
          message := "m" }) :=
  claim_C3_amended 2 none "k3" _ _ rfl rfl (by decide)

/-- C4 is false as stated: with retries = 1 and every attempt failing
retryably with no structured payload (and no transport code), the Err
returned after exhaustion carries the synthesized code `NETWORK_ERROR`,
not `RETRY_EXHAUSTED`. -/
theorem claim_C4_counterexample :
    ((Connector.request 1 none "u-c4"
        (fun _ => (AttemptOutcome.err
          { response := none, code := none, message := "connection refused" }
          : AttemptOutcome Unit))).result.errorData.map (·.code)) = some "NETWORK_ERROR" ∧
    ¬ ((Connector.request 1 none "u-c4"
        (fun _ => (AttemptOutcome.err
          { response := none, code := none, message := "connection refused" }
          : AttemptOutcome Unit))).result.errorData.map (·.code)) = some "RETRY_EXHAUSTED" := by
  decide

/-- C4 (amended): when every attempt fails retryably and no failure
carries a structured payload, all `retries + 1` attempts are consumed and
the Err returned after exhaustion carries the in-loop synthesized error
for the final failure (`HTTP_<status>` / transport code /
`NETWORK_ERROR`); the post-loop `RETRY_EXHAUSTED` synthesis is dead code,
never reached. -/
theorem claim_C4_amended {Res : Type} (retries : Nat) (requestId : Option String)
    (uuid : String) (t : Nat → AttemptOutcome Res) (e : Nat → AxiosError)
    (hT : ∀ i, t i = AttemptOutcome.err (e i) ∧ errPayload (e i) = none ∧
      isRetryableError (e i) = true) :
    (Connector.request retries requestId uuid t).headers.length = retries + 1 ∧
    (Connector.request retries requestId uuid t).result.success = "NO_OK" ∧
    (Connector.request retries requestId uuid t).result.errorData =
      some (synthNetworkError (requestId.getD uuid) (e retries)) ∧
    (Connector.request retries requestId uuid t).fellThrough = false := by
  have h := requestAux_allRetryable retries (requestId.getD uuid) t e
    (fun i => ⟨(hT i).1, (hT i).2.2⟩) (retries + 1) 0 none (by omega) (by omega)
  have hf := requestAux_not_fellThrough retries (requestId.getD uuid) t (retries + 1) 0 none
    (by omega) (by omega)
  refine ⟨by simpa [Connector.request] using h.1, by simpa [Connector.request] using h.2.1,
    ?_, by simpa [Connector.request] using hf⟩
  have he := h.2.2.2
  rw [(hT retries).2.1] at he
  simpa [Connector.request] using he

/-- Witness for the amended C4 at a concrete connection-refused
transport. -/
theorem claim_C4_amended_witness :
    (Connector.request 1 none "u4"
        (fun _ => (AttemptOutcome.err
          { response := none, code := none, message := "connection refused" }
          : AttemptOutcome Unit))).headers.length = 2 ∧
    (Connector.request 1 none "u4"
        (fun _ => (AttemptOutcome.err
          { response := none, code := none, message := "connection refused" }
          : AttemptOutcome Unit))).result.success = "NO_OK" ∧
    (Connector.request 1 none "u4"
        (fun _ => (AttemptOutcome.err
          { response := none, code := none, message := "connection refused" }
          : AttemptOutcome Unit))).result.errorData =
      some (synthNetworkError "u4"
        { response := none, code := none, message := "connection refused" }) ∧
    (Connector.request 1 none "u4"
        (fun _ => (AttemptOutcome.err
          { response := none, code := none, message := "connection refused" }
          : AttemptOutcome Unit))).fellThrough = false :=
  claim_C4_amended 1 none "u4" _ (fun _ =>
      { response := none, code := none, message := "connection refused" })
    (fun _ => ⟨rfl, rfl, rfl⟩)

/-- C5: with retries configured to 3 and a transport that fails every
attempt with HTTP status 503, the pipeline performs exactly 4 attempts
(the initial attempt plus 3 retries) and then returns an Err carrying the
final attempt's structured payload if one was present, otherwise a
synthesized error. -/
theorem claim_C5 {Res : Type} (requestId : Option String) (uuid : String)
    (t : Nat → AttemptOutcome Res) (e : Nat → AxiosError)
    (hT : ∀ i, t i = AttemptOutcome.err (e i) ∧
      ∃ r, (e i).response = some r ∧ r.status = 503) :
    (Connector.request 3 requestId uuid t).headers.length = 4 ∧
    (Connector.request 3 requestId uuid t).result.success = "NO_OK" ∧
    (Connector.request 3 requestId uuid t).result.errorData =
      some ((errPayload (e 3)).getD (synthNetworkError (requestId.getD uuid) (e 3))) := by
  have hr : ∀ i, isRetryableError (e i) = true := by
    intro i
    obtain ⟨-, r, hre, hs⟩ := hT i
    simp [isRetryableError, hre, hs]
  have h := requestAux_allRetryable 3 (requestId.getD uuid) t e
    (fun i => ⟨(hT i).1, hr i⟩) 4 0 none (by omega) (by omega)
  exact ⟨by simpa [Connector.request] using h.1, by simpa [Connector.request] using h.2.1,
    by simpa [Connector.request] using h.2.2.2⟩

/-- Witness for C5 at a concrete always-503 transport. -/
theorem claim_C5_witness :
    (Connector.request 3 none "u5"
        (fun _ => (AttemptOutcome.err
          { response := some { status := 503, statusText := "Service Unavailable", body := .other }
            code := none
            message := "Request failed with status code 503" } : AttemptOutcome Unit))).headers.length = 4 ∧
    (Connector.request 3 none "u5"
        (fun _ => (AttemptOutcome.err
          { response := some { status := 503, statusText := "Service Unavailable", body := .other }
            code := none
            message := "Request failed with status code 503" } : AttemptOutcome Unit))).result.success = "NO_OK" ∧
    (Connector.request 3 none "u5"
        (fun _ => (AttemptOutcome.err
          { response := some { status := 503, statusText := "Service Unavailable", body := .other }
            code := none
            message := "Request failed with status code 503" } : AttemptOutcome Unit))).result.errorData =
      some ((errPayload
          { response := some { status := 503, statusText := "Service Unavailable", body := .other }
            code := none
            message := "Request failed with status code 503" }).getD
        (synthNetworkError "u5"
          { response := some { status := 503, statusText := "Service Unavailable", body := .other }
            code := none
            message := "Request failed with status code 503" })) :=
  claim_C5 none "u5" _ (fun _ =>
      { response := some { status := 503, statusText := "Service Unavailable", body := .other }
        code := none
        message := "Request failed with status code 503" })
    (fun _ => ⟨rfl, _, rfl, rfl⟩)

/-- C6: for every failure carrying HTTP status 400 together with a
well-formed structured error envelope, the pipeline returns Err with that
envelope immediately after the first attempt, performing no retries and
waiting for no back-off. -/
theorem claim_C6 {Res : Type} (retries : Nat) (requestId : Option String)
    (uuid : String) (t : Nat → AttemptOutcome Res) (e : AxiosError)
    (r : AxiosResponse) (p : YooKassaErrResponse)
    (h0 : t 0 = AttemptOutcome.err e) (hre : e.response = some r)
    (hs : r.status = 400) (hb : r.body = RespBody.yoo p) :
    (Connector.request retries requestId uuid t).headers.length = 1 ∧
    (Connector.request retries requestId uuid t).delays = [] ∧
    (Connector.request retries requestId uuid t).result.success = "NO_OK" ∧
    (Connector.request retries requestId uuid t).result.errorData = some p ∧
    (Connector.request retries requestId uuid t).result.requestId =
      requestId.getD uuid := by
  have hp : errPayload e = some p := by simp [errPayload, hre, hb]
  have hr : isRetryableError e = false := by simp [isRetryableError, hre, hs]
  simp [Connector.request, requestAux, h0, hp, hr]

/-- Witness for C6 at a concrete 400 envelope failure. -/
theorem claim_C6_witness :
    (Connector.request 5 none "k6"
        (fun _ => (AttemptOutcome.err
          { response := some { status := 400, statusText := "Bad Request",
                               body := .yoo { id := "e1", code := "invalid_request", description := "bad amount" } }
            code := none
            message := "Request failed with status code 400" } : AttemptOutcome Unit))).headers.length = 1 ∧
    (Connector.request 5 none "k6"
        (fun _ => (AttemptOutcome.err
          { response := some { status := 400, statusText := "Bad Request",
                               body := .yoo { id := "e1", code := "invalid_request", description := "bad amount" } }
            code := none
            message := "Request failed with status code 400" } : AttemptOutcome Unit))).delays = [] ∧
    (Connector.request 5 none "k6"
        (fun _ => (AttemptOutcome.err
          { response := some { status := 400, statusText := "Bad Request",
                               body := .yoo { id := "e1", code := "invalid_request", description := "bad amount" } }
            code := none
            message := "Request failed with status code 400" } : AttemptOutcome Unit))).result.success = "NO_OK" ∧
    (Connector.request 5 none "k6"
        (fun _ => (AttemptOutcome.err
          { response := some { status := 400, statusText := "Bad Request",
                               body := .yoo { id := "e1", code := "invalid_request", description := "bad amount" } }
            code := none
            message := "Request failed with status code 400" } : AttemptOutcome Unit))).result.errorData =
      some { id := "e1", code := "invalid_request", description := "bad amount" } ∧
    (Connector.request 5 none "k6"
        (fun _ => (AttemptOutcome.err
          { response := some { status := 400, statusText := "Bad Request",
                               body := .yoo { id := "e1", code := "invalid_request", description := "bad amount" } }
            code := none
            message := "Request failed with status code 400" } : AttemptOutcome Unit))).result.requestId = "k6" :=
  claim_C6 5 none "k6" _ _
    { status := 400, statusText := "Bad Request",
      body := .yoo { id := "e1", code := "invalid_request", description := "bad amount" } }
    { id := "e1", code := "invalid_request", description := "bad amount" }
    rfl rfl rfl rfl

/-- C10: whenever the pipeline synthesizes an error payload itself (the
failure carried no structured envelope), the `id` field of the
synthesized errorData equals the call's idempotency key, and the `code`
field follows the precedence `HTTP_<status>` if a (nonzero) response
status is present, else the (nonempty) transport error code if present,
else `NETWORK_ERROR`. -/
theorem claim_C10 {Res : Type} (retries : Nat) (requestId : Option String)
    (uuid : String) (e : AxiosError)
    (hp : errPayload e = none)
    (hst : ∀ r, e.response = some r → r.status ≠ 0)
    (hc : ∀ c, e.code = some c → c ≠ "") :
    (Connector.request retries requestId uuid
        (fun _ => (AttemptOutcome.err e : AttemptOutcome Res))).result.errorData =
      some (synthNetworkError (requestId.getD uuid) e) ∧
    (synthNetworkError (requestId.getD uuid) e).id = requestId.getD uuid ∧
    (synthNetworkError (requestId.getD uuid) e).code =
      (match e.response with
       | some r => "HTTP_" ++ toString r.status
       | none => e.code.getD "NETWORK_ERROR") := by
  refine ⟨?_, ?_, ?_⟩
  · simpa [Connector.request] using
      requestAux_const_noPayload retries (requestId.getD uuid) e hp (retries + 1) 0 none
        (by omega) (by omega)
  · cases hre : e.response with
    | some r => simp [synthNetworkError, hre, hst r hre]
    | none => simp [synthNetworkError, hre]
  · cases hre : e.response with
    | some r => simp [synthNetworkError, hre, hst r hre]
    | none =>
      cases hcc : e.code with
      | none => simp [synthNetworkError, hre, hcc, jsOrStr]
      | some c => simp [synthNetworkError, hre, hcc, jsOrStr, hc c hcc]

/-- Witness for C10 at a concrete ECONNREFUSED failure. -/
theorem claim_C10_witness :
    (Connector.request 2 none "u10"
        (fun _ => (AttemptOutcome.err
          { response := none, code := some "ECONNREFUSED", message := "connect ECONNREFUSED" }
          : AttemptOutcome Unit))).result.errorData =
      some (synthNetworkError "u10"
        { response := none, code := some "ECONNREFUSED", message := "connect ECONNREFUSED" }) ∧
    (synthNetworkError "u10"
        { response := none, code := some "ECONNREFUSED", message := "connect ECONNREFUSED" }).id = "u10" ∧
    (synthNetworkError "u10"
        { response := none, code := some "ECONNREFUSED", message := "connect ECONNREFUSED" }).code =
      "ECONNREFUSED" := by
  have h := @claim_C10 Unit 2 none "u10"
    { response := none, code := some "ECONNREFUSED", message := "connect ECONNREFUSED" }
    rfl (fun r hr => Option.noConfusion hr)
    (fun c hc => by cases hc; decide)
  exact ⟨h.1, h.2.1, h.2.2⟩

end YooKassa
